import Mathlib

/-!
# Verification of the ptzcntrl multi-protocol PTZ command router

A shallow embedding of the command dispatch core of the ptzcntrl
repository: the per-device command router (mutex + conflation + watchdog +
STOP-priority bypass), the Panasonic CGI encoder and adapter
(duplicate suppression), the other protocol adapters' error containment,
the discovery aggregator, and the security gate's command sanitizer.

JavaScript numbers are modelled as rationals (`ℚ`), JS `Math.round` as
`⌊x + 1/2⌋` (round half toward +∞, which is exactly JS semantics),
objects holding optional fields as structures over `Option`, promise
rejection / thrown exceptions as `Except String`, and the single-threaded
event loop as an explicit small-step transition system whose events are
command arrival, completion of an in-flight send, and watchdog firing.
-/

namespace Ptzcntrl

/-- JS `Math.round`: round half toward positive infinity. -/
def jsRound (q : ℚ) : ℤ := ⌊q + 1/2⌋

/-- `clamp(num, min, max)` from `protocols/panasonic.js`:
`Math.min(Math.max(num, min), max)`. -/
def clamp (num mn mx : ℤ) : ℤ := min (max num mn) mx

/-- `pad(num)` from `protocols/panasonic.js`:
`Math.round(num).toString().padStart(2, '0')`. -/
def pad (q : ℚ) : String :=
  let s := toString (jsRound q)
  if s.length < 2 then "0" ++ s else s

/-- Two-dimensional joystick vector `{x, y}`. -/
structure Vec2 where
  x : ℚ
  y : ℚ
deriving DecidableEq, Repr

/-- `mapCommandToCgi(action, speed, vector)` from `protocols/panasonic.js`
(the vector-capable revision): encodes a generic action into the
Panasonic CGI wire code. -/
def mapCommandToCgi (action : String) (speed : ℚ) (vector : Option Vec2) : String :=
  let safeSpeed := max 0 (min 100 speed)
  let speedFactor := (safeSpeed / 100) * 49
  match vector with
  | some v =>
    if action = "PTZ_VECTOR" then
      -- deadzone check (0.02 on both axes)
      if |v.x| < 2/100 ∧ |v.y| < 2/100 then "PTS5050"
      else
        let panVal := clamp (50 + jsRound (v.x * speedFactor)) 1 99
        let tiltVal := clamp (50 + jsRound (v.y * speedFactor)) 1 99
        "PTS" ++ pad (panVal : ℚ) ++ pad (tiltVal : ℚ)
    else mapDiscrete action speed speedFactor
  | none => mapDiscrete action speed speedFactor
where
  /-- The discrete-action switch of `mapCommandToCgi` (reached when the
  vector branch does not apply). -/
  mapDiscrete (action : String) (speed speedFactor : ℚ) : String :=
    let delta := jsRound (1 * speedFactor)
    match action with
    | "PAN_LEFT" => ptWire (50 - delta) 50
    | "PAN_RIGHT" => ptWire (50 + delta) 50
    | "TILT_UP" => ptWire 50 (50 + delta)
    | "TILT_DOWN" => ptWire 50 (50 - delta)
    | "ZOOM_IN" => "Z" ++ pad ((50 + jsRound speedFactor : ℤ) : ℚ)
    | "ZOOM_OUT" => "Z" ++ pad ((50 - jsRound speedFactor : ℤ) : ℚ)
    | "ZOOM_STOP" => "Z50"
    | "STOP" => "PTS5050"
    | "PRESET_CALL" => "R" ++ pad speed
    | "PRESET_SET" => "M" ++ pad speed
    | _ => ptWire 50 50
  /-- The clamp-then-format tail shared by the pan/tilt cases. -/
  ptWire (panVal tiltVal : ℤ) : String :=
    "PTS" ++ pad ((clamp panVal 1 99 : ℤ) : ℚ) ++ pad ((clamp tiltVal 1 99 : ℤ) : ℚ)

/-! ## Command Router (`src/unnamed/part_002`, the queue + conflation revision)

The router keeps three module-level maps keyed by `device.ip`:
`deviceBusy`, `devicePending`, and `deviceWatchdogs`.  We model the state
for one device as a record and the global maps as a function from device
id to that record.  The single-threaded event loop is modelled by three
events: arrival of an inbound command for a device (`sendPtzCommand`'s
watchdog logic followed by `queueCommand`), completion of the in-flight
send (the `finally` block of `executeCommand`), and the watchdog timer
firing.  The wire transmissions made for a device are recorded in
arrival order in `sends`. -/

/-- An inbound command as seen by the router: `{ action, target?, speed? }`.
`speed = none` models an absent `cmd.speed` field. -/
structure Cmd where
  action : String
  speed : Option ℚ
deriving DecidableEq, Repr

/-- `cmd.speed || 50`: JS `||` replaces any falsy value (absent or `0`)
with the default `50`. -/
def effSpeed (c : Cmd) : ℚ :=
  match c.speed with
  | none => 50
  | some q => if q = 0 then 50 else q

/-- JS `String.prototype.startsWith`, over the string's character
list. -/
def jsStartsWith (s pre : String) : Bool := pre.data.isPrefixOf s.data

/-- The motion test of the watchdog logic:
`cmd.action !== 'STOP' && (startsWith('PAN') || startsWith('TILT') || startsWith('ZOOM'))`. -/
def isMotion (a : String) : Bool :=
  a ≠ "STOP" ∧ (jsStartsWith a "PAN" ∨ jsStartsWith a "TILT" ∨ jsStartsWith a "ZOOM")

/-- Dispatch state for one device: `deviceBusy[devId]`,
`devicePending[devId]`, `deviceWatchdogs[devId]` (presence of a live
timer handle), and the list of wire sends made for this device, each as
`(action, speed)` exactly as passed to `handler.sendCommand`. -/
structure DevState where
  busy : Bool
  pending : Option Cmd
  watchdog : Bool
  sends : List (String × ℚ)
deriving DecidableEq, Repr

/-- Fresh dispatch state: the maps hold no entry for the device. -/
def DevState.init : DevState := ⟨false, none, false, []⟩

/-- `executeCommand`'s entry: set `deviceBusy[devId] = true` and call
`handler.sendCommand(device, cmd.action, cmd.speed || 50)`. -/
def executeCommand (s : DevState) (c : Cmd) : DevState :=
  { s with busy := true, sends := s.sends ++ [(c.action, effSpeed c)] }

/-- `queueCommand(devId, device, handler, cmd)`: if busy, a STOP bypasses
the queue (fires immediately, clears any pending command, leaves the busy
flag alone) and any other command overwrites the single pending slot;
if idle, execute immediately. -/
def queueCommand (s : DevState) (c : Cmd) : DevState :=
  if s.busy then
    if c.action = "STOP" then
      { s with pending := none, sends := s.sends ++ [("STOP", effSpeed c)] }
    else
      { s with pending := some c }
  else
    executeCommand s c

/-- The per-device body of `sendPtzCommand`: clear any existing watchdog
timer, re-arm it if the command is a continuous motion, then enter
`queueCommand`. -/
def arriveCmd (s : DevState) (c : Cmd) : DevState :=
  let s1 : DevState := { s with watchdog := false }
  let s2 : DevState := if isMotion c.action then { s1 with watchdog := true } else s1
  queueCommand s2 c

/-- The `finally` block of `executeCommand`: on completion of the
in-flight send, run the pending command (if any) next, otherwise release
the busy flag. Only meaningful in a busy state. -/
def completeSend (s : DevState) : DevState :=
  match s.pending with
  | some next => executeCommand { s with pending := none } next
  | none => { s with busy := false }

/-- The watchdog timeout callback: queue a forced
`{ action: 'STOP' }` through `queueCommand` and drop the timer handle.
Only meaningful while the timer is armed. -/
def fireWatchdog (s : DevState) : DevState :=
  queueCommand { s with watchdog := false } ⟨"STOP", none⟩

/-- The router's global dispatch state: one `DevState` per device id
(the module-level maps keyed by `device.ip`). -/
def RouterState := String → DevState

/-- Apply a per-device transition at one device id, leaving every other
device's state untouched (the maps are keyed by device id). -/
def atDev (rs : RouterState) (d : String) (f : DevState → DevState) : RouterState :=
  fun k => if k = d then f (rs k) else rs k

/-- Command arrival for one targeted device. -/
def routerArrive (rs : RouterState) (d : String) (c : Cmd) : RouterState :=
  atDev rs d (fun s => arriveCmd s c)

/-- Completion of device `d`'s in-flight send. -/
def routerComplete (rs : RouterState) (d : String) : RouterState :=
  atDev rs d completeSend

/-- Device `d`'s watchdog fires. -/
def routerFire (rs : RouterState) (d : String) : RouterState :=
  atDev rs d fireWatchdog

/-! ## Security Gate (`sanitizeCommand` in `src/server/main.js`) -/

/-- A JavaScript value in a field of the inbound payload: a string, a
number (modelled as ℚ), or anything else (absent, boolean, object, …),
which the gate's `typeof` checks treat uniformly. -/
inductive JsVal
  | str (s : String)
  | num (q : ℚ)
  | other
deriving DecidableEq, Repr

/-- The inbound payload fields `sanitizeCommand` inspects. -/
structure InboundCmd where
  action : JsVal
  speed : JsVal
  target : JsVal
deriving DecidableEq, Repr

/-- The well-typed command the gate produces. -/
structure SanitizedCmd where
  action : String
  speed : ℚ
  target : String
deriving DecidableEq, Repr

/-- JS `String.prototype.toUpperCase`, which agrees with per-character
ASCII uppercasing on the action strings involved (modelled over the
string's character list). -/
def jsToUpper (s : String) : String := ⟨s.data.map Char.toUpper⟩

/-- `ALLOWED_ACTIONS` from `src/server/main.js` (the security module). -/
def ALLOWED_ACTIONS : List String :=
  ["PAN_LEFT", "PAN_RIGHT", "TILT_UP", "TILT_DOWN", "STOP",
   "ZOOM_IN", "ZOOM_OUT", "PRESET_CALL"]

/-- `sanitizeCommand(cmd)`: reject unless `cmd.action` is a truthy string
whose uppercase form is in the allow-list; coerce `speed` into `[0,100]`
with default `50` for non-numbers, default `target` to `"ALL"` for
non-strings. -/
def sanitizeCommand (cmd : InboundCmd) : Option SanitizedCmd :=
  match cmd.action with
  | .str a =>
    -- `!cmd.action` also rejects the falsy empty string
    if a = "" then none
    else if ALLOWED_ACTIONS.contains (jsToUpper a) then
      some { action := jsToUpper a
             speed := match cmd.speed with
                      | .num q => max 0 (min 100 q)
                      | _ => 50
             target := match cmd.target with
                       | .str t => t
                       | _ => "ALL" }
    else none
  | _ => none

/-- The spec's closed action enumeration (§3 Data model): the discrete
motions, stop, preset recall and store, and the continuous vector
variant.  Stated from the spec's words, for comparison with the
code's allow-list. -/
def specActionEnumeration : List String :=
  ["PAN_LEFT", "PAN_RIGHT", "TILT_UP", "TILT_DOWN", "ZOOM_IN", "ZOOM_OUT",
   "STOP", "PRESET_CALL", "PRESET_SET", "PTZ_VECTOR"]

/-! ## Protocol adapters

Thrown exceptions / rejected promises are modelled with `Except String`;
`tryE` is a JS `try { … } catch (e) { … }`.  The network is an oracle
argument: each `axios` / socket operation is given its outcome
(`.ok ()` — the transport succeeded, `.error e` — it raised with
message `e`). -/

/-- The adapter-call outcome `{ success: bool, error?: string,
skipped?: bool }`. -/
structure Outcome where
  success : Bool
  error : Option String := none
  skipped : Option Bool := none
deriving DecidableEq, Repr

/-- `try { m } catch (e) { h(e) }`. -/
def tryE {α : Type} (m : Except String α) (h : String → Except String α) :
    Except String α :=
  match m with
  | .ok a => .ok a
  | .error e => h e

/-! ### Panasonic (`src/server/protocols/panasonic.js`, vector revision) -/

/-- The module-level `lastCmds` map: last encoded command per device IP,
used for duplicate suppression. -/
structure PanaState where
  lastCmds : String → Option String

/-- `sendCommand(device, action, params)`.  Returns the outcome, the
updated `lastCmds` state, and the list of wire transmissions attempted
by this call (the encoded CGI command, attempted even when the transport
then fails).  `net` is the outcome of the `axios.get`. -/
def pana_sendCommand (st : PanaState) (ip : String) (action : String)
    (speed : ℚ) (vector : Option Vec2) (net : Except String Unit) :
    Except String (Outcome × PanaState × List String) :=
  let cgiParams := mapCommandToCgi action speed vector
  if st.lastCmds ip = some cgiParams then
    .ok ({ success := true, skipped := some true }, st, [])
  else
    let st' : PanaState := ⟨fun k => if k = ip then some cgiParams else st.lastCmds k⟩
    tryE (do
        let _ ← net
        .ok ({ success := true }, st', [cgiParams]))
      (fun e => .ok ({ success := false, error := some e }, st', [cgiParams]))

/-- `stop(device)`: delete `lastCmds[device.ip]` so the next move is
allowed, then fire the neutral `P50T50Z50` command. -/
def pana_stop (st : PanaState) (ip : String) (net : Except String Unit) :
    Except String (Outcome × PanaState × List String) :=
  let st' : PanaState := ⟨fun k => if k = ip then none else st.lastCmds k⟩
  tryE (do
      let _ ← net
      .ok ({ success := true }, st', ["P50T50Z50"]))
    (fun e => .ok ({ success := false, error := some e }, st', ["P50T50Z50"]))

/-! ### VISCA (`visca` module, second document of `src/server/protocols/ndi.js`) -/

/-- VISCA command byte sequences (JS arrays of numbers). -/
def VISCA_PAN_TILT : List ℚ := [0x01, 0x06, 0x01]

/-- `PAN_TILT_STOP` byte sequence. -/
def VISCA_PAN_TILT_STOP : List ℚ := [0x01, 0x06, 0x01, 0x03, 0x03, 0x03, 0x03]

/-- `ZOOM_IN` (tele) byte sequence. -/
def VISCA_ZOOM_IN : List ℚ := [0x01, 0x04, 0x07, 0x02]

/-- `ZOOM_OUT` (wide) byte sequence. -/
def VISCA_ZOOM_OUT : List ℚ := [0x01, 0x04, 0x07, 0x03]

/-- `ZOOM_STOP` byte sequence. -/
def VISCA_ZOOM_STOP : List ℚ := [0x01, 0x04, 0x07, 0x00]

/-- `PRESET_RECALL` byte prefix. -/
def VISCA_PRESET_RECALL : List ℚ := [0x01, 0x04, 0x3F, 0x02]

/-- `PRESET_SET` byte prefix. -/
def VISCA_PRESET_SET : List ℚ := [0x01, 0x04, 0x3F, 0x01]

/-- `sendViscaUdp(ip, port, command)`: rejects when `socket.send` reports
an error, otherwise resolves `{ success: true }` (from the send callback
or the 100 ms timeout, as VISCA does not reliably acknowledge). -/
def sendViscaUdp (net : Except String Unit) (_command : List ℚ) :
    Except String Outcome :=
  match net with
  | .ok _ => .ok { success := true }
  | .error e => .error e

/-- `Math.max(1, Math.min(24, Math.floor(speed / 4.2)))`. -/
def viscaSpeed (speed : ℚ) : ℤ := max 1 (min 24 ⌊speed / (42/10)⌋)

/-- VISCA `sendCommand(device, action, speed)`.  `net1`/`net2` are the
transport outcomes of the (up to two) UDP sends; actions other than STOP
use only `net1`. -/
def visca_sendCommand (action : String) (speed : ℚ)
    (net1 net2 : Except String Unit) : Except String Outcome :=
  let vs : ℚ := (viscaSpeed speed : ℚ)
  tryE (do
      match action with
      | "PAN_LEFT" => sendViscaUdp net1 (VISCA_PAN_TILT ++ [vs, vs, 0x01, 0x03])
      | "PAN_RIGHT" => sendViscaUdp net1 (VISCA_PAN_TILT ++ [vs, vs, 0x02, 0x03])
      | "TILT_UP" => sendViscaUdp net1 (VISCA_PAN_TILT ++ [vs, vs, 0x03, 0x01])
      | "TILT_DOWN" => sendViscaUdp net1 (VISCA_PAN_TILT ++ [vs, vs, 0x03, 0x02])
      | "ZOOM_IN" => sendViscaUdp net1 VISCA_ZOOM_IN
      | "ZOOM_OUT" => sendViscaUdp net1 VISCA_ZOOM_OUT
      | "STOP" => do
          let _ ← sendViscaUdp net1 VISCA_PAN_TILT_STOP
          sendViscaUdp net2 VISCA_ZOOM_STOP
      | "PRESET_CALL" => sendViscaUdp net1 (VISCA_PRESET_RECALL ++ [speed])
      | "PRESET_SET" => sendViscaUdp net1 (VISCA_PRESET_SET ++ [speed])
      | _ => .ok { success := false, error := some "Unknown action" })
    (fun e => .ok { success := false, error := some e })

/-- VISCA `stop(device)`: pan/tilt stop then zoom stop, both inside the
same `try`. -/
def visca_stop (net1 net2 : Except String Unit) : Except String Outcome :=
  tryE (do
      let _ ← sendViscaUdp net1 VISCA_PAN_TILT_STOP
      let _ ← sendViscaUdp net2 VISCA_ZOOM_STOP
      .ok { success := true })
    (fun e => .ok { success := false, error := some e })

/-! ### Generic HTTP "NDI-style" (`src/server/protocols/ndi.js`) -/

/-- The actions `ndi.sendCommand`'s switch knows; any other action takes
the `default` branch returning an `Unknown action` failure outcome. -/
def ndiKnownActions : List String :=
  ["PAN_LEFT", "PAN_RIGHT", "TILT_UP", "TILT_DOWN", "ZOOM_IN", "ZOOM_OUT",
   "STOP", "PRESET_CALL", "PRESET_SET"]

/-- The three-shape fallback chain: query-parameter REST, then the
legacy CGI form, then a JSON POST; the first attempt that does not raise
wins, and the error of the third attempt escapes the inner chain. -/
def ndiAttempts (o1 o2 o3 : Except String Unit) : Except String Unit :=
  tryE o1 (fun _ => tryE o2 (fun _ => o3))

/-- NDI `sendCommand(device, action, params)`: unknown actions return a
failure outcome; known actions run the fallback chain inside the outer
`try`, whose `catch` converts the escaped transport error into a failure
outcome. -/
def ndi_sendCommand (action : String) (_speed : ℚ)
    (o1 o2 o3 : Except String Unit) : Except String Outcome :=
  tryE (do
      if action ∈ ndiKnownActions then do
        let _ ← ndiAttempts o1 o2 o3
        .ok { success := true }
      else
        .ok { success := false, error := some "Unknown action" })
    (fun e => .ok { success := false, error := some e })

/-- NDI `stop(device)` delegates to `sendCommand(device, 'STOP')` with
the default speed. -/
def ndi_stop (o1 o2 o3 : Except String Unit) : Except String Outcome :=
  ndi_sendCommand "STOP" 50 o1 o2 o3

/-! ### ONVIF (`src/server/protocols/onvif.js`) -/

/-- A wire-level ONVIF PTZ operation. -/
inductive OnvifOp
  | continuousMove (x y z : ℚ)
  | stopOp
  | gotoPreset (token : String)
  | setPreset (token : String)
deriving DecidableEq, Repr

/-- `Math.abs(normalizedSpeed) || 0.5` with its sign, as used by the
discrete ONVIF branches: a zero magnitude falls back to `0.5`. -/
def onvifAxis (sign : ℚ) (normalizedSpeed : ℚ) : ℚ :=
  if |normalizedSpeed| = 0 then sign * (1/2) else sign * |normalizedSpeed|

/-- The ONVIF operation `sendCommand` performs for an action (after a
successful `getDevice`), or `none` for the `default` branch. -/
def onvifOpFor (action : String) (speed : ℚ) (vector : Option Vec2) :
    Option OnvifOp :=
  let ns := speed / 100
  match vector with
  | some v =>
    if action = "PTZ_VECTOR" then
      some (.continuousMove (v.x * ns) (v.y * ns) 0)
    else onvifDiscrete action speed ns
  | none => onvifDiscrete action speed ns
where
  /-- The discrete-action switch. -/
  onvifDiscrete (action : String) (speed ns : ℚ) : Option OnvifOp :=
    match action with
    | "PAN_LEFT" => some (.continuousMove (onvifAxis (-1) ns) 0 0)
    | "PAN_RIGHT" => some (.continuousMove (onvifAxis 1 ns) 0 0)
    | "TILT_UP" => some (.continuousMove 0 (onvifAxis 1 ns) 0)
    | "TILT_DOWN" => some (.continuousMove 0 (onvifAxis (-1) ns) 0)
    | "ZOOM_IN" => some (.continuousMove 0 0 (onvifAxis 1 ns))
    | "ZOOM_OUT" => some (.continuousMove 0 0 (onvifAxis (-1) ns))
    | "STOP" => some .stopOp
    | "PRESET_CALL" => some (.gotoPreset (toString speed))
    | "PRESET_SET" => some (.setPreset (toString speed))
    | _ => none

/-- ONVIF `sendCommand(deviceInfo, action, params)`.  `initNet` is the
outcome of `getDevice` (which rethrows its connection failure), `opNet`
of the PTZ service call; both throws are contained by the boundary
`catch`. -/
def onvif_sendCommand (action : String) (speed : ℚ) (vector : Option Vec2)
    (initNet opNet : Except String Unit) : Except String Outcome :=
  tryE (do
      let _ ← initNet
      match onvifOpFor action speed vector with
      | some _op => do
          let _ ← opNet
          .ok { success := true }
      | none => .ok { success := false, error := some "Unknown action" })
    (fun e => .ok { success := false, error := some e })

/-- ONVIF `stop(deviceInfo)`: `getDevice` then `ptzStop`, both throws
contained by the boundary `catch`. -/
def onvif_stop (initNet opNet : Except String Unit) : Except String Outcome :=
  tryE (do
      let _ ← initNet
      let _ ← opNet
      .ok { success := true })
    (fun e => .ok { success := false, error := some e })

/-! ## Discovery Aggregator (`discoverAll` in `src/unnamed/part_002`) -/

/-- A discovered device descriptor (the fields the discovery routines
fill in). -/
structure DeviceDescr where
  ip : String
  port : ℚ
  protocol : String
  name : String
deriving DecidableEq, Repr

/-- The `results.forEach` loop over `Promise.allSettled` results:
push each fulfilled adapter's devices, skip (and log) each rejected
one. -/
def aggregateSettled (results : List (Except String (List DeviceDescr))) :
    List DeviceDescr :=
  results.foldl
    (fun allDevices r =>
      match r with
      | .ok v => allDevices ++ v
      | .error _ => allDevices)
    []

/-- The devices contributed by one settled discovery result. -/
def settledValue (r : Except String (List DeviceDescr)) : List DeviceDescr :=
  match r with
  | .ok v => v
  | .error _ => []

/-- `discoverAll()`: settle the four adapters' discovery promises
(Panasonic, ONVIF, VISCA, NDI, in that order) and aggregate the
fulfilled ones.  The function body contains no `throw`, so the promise
it returns always resolves; the model is accordingly a total function. -/
def discoverAll (rp ro rv rn : Except String (List DeviceDescr)) :
    List DeviceDescr :=
  aggregateSettled [rp, ro, rv, rn]

/-! ## Helper lemmas -/

/-- `"STOP"` is not a motion action. -/
lemma isMotion_stop : isMotion "STOP" = false := by decide

/-- Reading the device a transition was applied to. -/
lemma atDev_same (rs : RouterState) (d : String) (f : DevState → DevState) :
    (atDev rs d f) d = f (rs d) := by
  simp [atDev]

/-- Reading any other device: untouched. -/
lemma atDev_other (rs : RouterState) (d k : String) (f : DevState → DevState)
    (h : k ≠ d) : (atDev rs d f) k = rs k := by
  simp [atDev, h]

/-- A non-stop arrival on a busy device only overwrites the pending slot
and resets the watchdog flag. -/
lemma arriveCmd_busy_nonstop (s : DevState) (c : Cmd)
    (hb : s.busy = true) (hc : c.action ≠ "STOP") :
    arriveCmd s c = { s with pending := some c, watchdog := isMotion c.action } := by
  by_cases hm : isMotion c.action <;>
    simp [arriveCmd, queueCommand, hb, hc, hm]

/-- After any arrival the watchdog is armed iff the arrival was a motion
command: the timer is always cleared first and re-armed only for motion. -/
lemma arriveCmd_watchdog (s : DevState) (c : Cmd) :
    (arriveCmd s c).watchdog = isMotion c.action := by
  by_cases hm : isMotion c.action <;>
    by_cases hb : s.busy <;>
    by_cases hc : c.action = "STOP" <;>
    simp [arriveCmd, queueCommand, executeCommand, hm, hb, hc, isMotion_stop]

/-- Firing the watchdog, from any dispatch state, records exactly one
forced stop and drops the timer handle. -/
lemma fireWatchdog_one_stop (s : DevState) :
    (fireWatchdog s).sends = s.sends ++ [("STOP", 50)]
    ∧ (fireWatchdog s).watchdog = false := by
  by_cases hb : s.busy <;>
    simp [fireWatchdog, queueCommand, executeCommand, hb, effSpeed]

/-- Folding non-stop arrivals over a busy device transmits nothing,
keeps the device busy, and leaves the pending slot holding the latest
arrival (or the original pending command if none arrived). -/
lemma foldl_arrive_busy (cs : List Cmd) (s : DevState)
    (hb : s.busy = true) (hcs : ∀ c ∈ cs, c.action ≠ "STOP") :
    (cs.foldl arriveCmd s).busy = true
    ∧ (cs.foldl arriveCmd s).sends = s.sends
    ∧ (cs.foldl arriveCmd s).pending = cs.foldl (fun _ c => some c) s.pending := by
  induction cs generalizing s with
  | nil => exact ⟨hb, rfl, rfl⟩
  | cons c cs ih =>
    rw [List.foldl_cons, List.foldl_cons,
      arriveCmd_busy_nonstop s c hb (hcs c (by simp))]
    exact ih _ hb (fun c' hc' => hcs c' (by simp [hc']))

/-- The Panasonic CGI encoding of `PAN_LEFT` at speed 50. -/
lemma mapCommandToCgi_pan_left_50 : mapCommandToCgi "PAN_LEFT" 50 none = "PTS2550" := by
  simp only [mapCommandToCgi, mapCommandToCgi.mapDiscrete,
    mapCommandToCgi.ptWire, jsRound, clamp, pad]
  norm_num [Int.floor_eq_iff]
  rfl

/-! ## Claim theorems -/

/-- C1: a continuous-motion command arms the per-device watchdog; any new
command for the device cancels the timer, a motion command re-arms it, a
stop cancels it without re-arming; firing the watchdog (from any dispatch
state) records exactly one forced stop for that device and clears the
timer; in the motion-then-silence scenario the forced stop goes to that
device only and the dispatch state ends idle with no pending command and
no watchdog. -/
theorem watchdog_forces_single_stop (rs : RouterState) (d : String) (c : Cmd)
    (hm : isMotion c.action = true)
    (hb : (rs d).busy = false) (hp : (rs d).pending = none) :
    ((routerArrive rs d c) d).watchdog = true
  ∧ (∀ (rs' : RouterState) (c' : Cmd),
      ((routerArrive rs' d c') d).watchdog = isMotion c'.action)
  ∧ (∀ s : DevState, (fireWatchdog s).sends = s.sends ++ [("STOP", 50)]
      ∧ (fireWatchdog s).watchdog = false)
  ∧ (let s1 := routerArrive rs d c
     let s2 := routerComplete s1 d
     let s3 := routerFire s2 d
     let s4 := routerComplete s3 d
     (s2 d).watchdog = true ∧ (s2 d).busy = false
     ∧ (s3 d).sends = (rs d).sends ++ [(c.action, effSpeed c), ("STOP", 50)]
     ∧ (s3 d).watchdog = false
     ∧ (∀ k, k ≠ d → s3 k = rs k)
     ∧ (s4 d).busy = false ∧ (s4 d).pending = none ∧ (s4 d).watchdog = false
     ∧ (s4 d).sends = (s3 d).sends) := by
  refine ⟨?_, ?_, fireWatchdog_one_stop, ?_⟩
  · rw [routerArrive, atDev_same, arriveCmd_watchdog, hm]
  · intro rs' c'
    rw [routerArrive, atDev_same, arriveCmd_watchdog]
  · have h1 : (routerArrive rs d c) d =
        { busy := true, pending := none, watchdog := true,
          sends := (rs d).sends ++ [(c.action, effSpeed c)] } := by
      rw [routerArrive, atDev_same]
      simp [arriveCmd, queueCommand, executeCommand, hb, hp, hm]
    have h2 : (routerComplete (routerArrive rs d c) d) d =
        { busy := false, pending := none, watchdog := true,
          sends := (rs d).sends ++ [(c.action, effSpeed c)] } := by
      rw [routerComplete, atDev_same, h1]
      simp [completeSend]
    have h3 : (routerFire (routerComplete (routerArrive rs d c) d) d) d =
        { busy := true, pending := none, watchdog := false,
          sends := (rs d).sends ++ [(c.action, effSpeed c), ("STOP", 50)] } := by
      rw [routerFire, atDev_same, h2]
      simp [fireWatchdog, queueCommand, executeCommand, effSpeed]
    have h4 : (routerComplete (routerFire (routerComplete (routerArrive rs d c) d) d) d) d =
        { busy := false, pending := none, watchdog := false,
          sends := (rs d).sends ++ [(c.action, effSpeed c), ("STOP", 50)] } := by
      rw [routerComplete, atDev_same, h3]
      simp [completeSend]
    refine ⟨by simp [h2], by simp [h2], by simp [h3], by simp [h3], ?_,
            by simp [h4], by simp [h4], by simp [h4], by simp [h4, h3]⟩
    intro k hk
    rw [routerFire, atDev_other _ _ _ _ hk, routerComplete, atDev_other _ _ _ _ hk,
      routerArrive, atDev_other _ _ _ _ hk]

/-- Witness for C1: a concrete idle device receiving `PAN_LEFT` has its
watchdog armed. -/
theorem watchdog_forces_single_stop_witness :
    ((routerArrive (fun _ => DevState.init) "10.0.0.5" ⟨"PAN_LEFT", some 30⟩)
        "10.0.0.5").watchdog = true :=
  (watchdog_forces_single_stop (fun _ => DevState.init) "10.0.0.5"
    ⟨"PAN_LEFT", some 30⟩ (by show isMotion "PAN_LEFT" = true; decide) rfl rfl).1

/-- C2: a stop arriving while the device is busy is transmitted at once,
in parallel with the in-flight send (the busy flag stays set), the
pending conflated command is deleted, and the subsequent completion of
the in-flight send executes nothing further; other devices are
untouched. -/
theorem stop_priority_bypass (rs : RouterState) (d : String) (sp : Option ℚ)
    (hb : (rs d).busy = true) :
    ((routerArrive rs d ⟨"STOP", sp⟩) d).sends
        = (rs d).sends ++ [("STOP", effSpeed ⟨"STOP", sp⟩)]
  ∧ ((routerArrive rs d ⟨"STOP", sp⟩) d).busy = true
  ∧ ((routerArrive rs d ⟨"STOP", sp⟩) d).pending = none
  ∧ ((routerComplete (routerArrive rs d ⟨"STOP", sp⟩) d) d).sends
        = ((routerArrive rs d ⟨"STOP", sp⟩) d).sends
  ∧ ((routerComplete (routerArrive rs d ⟨"STOP", sp⟩) d) d).busy = false
  ∧ (∀ k, k ≠ d → (routerArrive rs d ⟨"STOP", sp⟩) k = rs k) := by
  have h1 : (routerArrive rs d ⟨"STOP", sp⟩) d =
      { busy := (rs d).busy, pending := none, watchdog := false,
        sends := (rs d).sends ++ [("STOP", effSpeed ⟨"STOP", sp⟩)] } := by
    rw [routerArrive, atDev_same]
    simp [arriveCmd, queueCommand, isMotion_stop, hb]
  have h2 : (routerComplete (routerArrive rs d ⟨"STOP", sp⟩) d) d =
      { busy := false, pending := none, watchdog := false,
        sends := (rs d).sends ++ [("STOP", effSpeed ⟨"STOP", sp⟩)] } := by
    rw [routerComplete, atDev_same, h1]
    simp [completeSend]
  refine ⟨by simp [h1], by simp [h1, hb], by simp [h1], by simp [h1, h2],
          by simp [h2], ?_⟩
  intro k hk
  rw [routerArrive, atDev_other _ _ _ _ hk]

/-- Witness for C2: a concrete busy device with a pending motion command
receiving STOP has the stop recorded immediately and the pending slot
cleared. -/
theorem stop_priority_bypass_witness :
    ((routerArrive
        (fun _ => ⟨true, some ⟨"PAN_LEFT", some 20⟩, true, []⟩)
        "10.0.0.5" ⟨"STOP", none⟩) "10.0.0.5").pending = none :=
  (stop_priority_bypass (fun _ => ⟨true, some ⟨"PAN_LEFT", some 20⟩, true, []⟩)
    "10.0.0.5" none rfl).2.2.1

/-- C3: per device, non-stop commands arriving while a send is in flight
are conflated into a single pending slot (nothing is transmitted, the
latest arrival wins, earlier pending commands are dropped); when the
in-flight send completes, exactly the last observed command executes
next; in particular motion A on an idle device followed by B while A is
in flight yields exactly A then B on the wire, in that order. -/
theorem conflation_latest_wins (s : DevState) (cs : List Cmd) (clast : Cmd)
    (hb : s.busy = true)
    (hcs : ∀ c ∈ cs, c.action ≠ "STOP") (hlast : clast.action ≠ "STOP") :
    ((cs ++ [clast]).foldl arriveCmd s).busy = true
  ∧ ((cs ++ [clast]).foldl arriveCmd s).sends = s.sends
  ∧ ((cs ++ [clast]).foldl arriveCmd s).pending = some clast
  ∧ (completeSend ((cs ++ [clast]).foldl arriveCmd s)).sends
      = s.sends ++ [(clast.action, effSpeed clast)]
  ∧ (completeSend ((cs ++ [clast]).foldl arriveCmd s)).pending = none
  ∧ (∀ (rs : RouterState) (d : String) (A B : Cmd),
      (rs d).busy = false → (rs d).pending = none →
      isMotion A.action = true → B.action ≠ "STOP" →
      ((routerArrive rs d A) d).sends
          = (rs d).sends ++ [(A.action, effSpeed A)]
      ∧ ((routerArrive (routerArrive rs d A) d B) d).sends
          = (rs d).sends ++ [(A.action, effSpeed A)]
      ∧ ((routerComplete (routerArrive (routerArrive rs d A) d B) d) d).sends
          = (rs d).sends ++ [(A.action, effSpeed A), (B.action, effSpeed B)]
      ∧ ((routerComplete (routerComplete (routerArrive (routerArrive rs d A) d B) d) d) d).sends
          = (rs d).sends ++ [(A.action, effSpeed A), (B.action, effSpeed B)]
      ∧ ((routerComplete (routerComplete (routerArrive (routerArrive rs d A) d B) d) d) d).busy
          = false
      ∧ ((routerComplete (routerComplete (routerArrive (routerArrive rs d A) d B) d) d) d).pending
          = none) := by
  have hall : ∀ c ∈ cs ++ [clast], c.action ≠ "STOP" := by
    intro c hc
    rcases List.mem_append.mp hc with h | h
    · exact hcs c h
    · rw [List.mem_singleton.mp h]; exact hlast
  obtain ⟨hbN, hsN, hpN⟩ := foldl_arrive_busy (cs ++ [clast]) s hb hall
  have hpN' : ((cs ++ [clast]).foldl arriveCmd s).pending = some clast := by
    rw [hpN, List.foldl_append]
    rfl
  set sN := (cs ++ [clast]).foldl arriveCmd s with hdef
  refine ⟨hbN, hsN, hpN', ?_, ?_, ?_⟩
  · simp [completeSend, hpN', executeCommand, hsN]
  · simp [completeSend, hpN', executeCommand]
  · intro rs d A B hb0 hp0 hmA hBs
    have h1 : (routerArrive rs d A) d =
        { busy := true, pending := none, watchdog := true,
          sends := (rs d).sends ++ [(A.action, effSpeed A)] } := by
      rw [routerArrive, atDev_same]
      simp [arriveCmd, queueCommand, executeCommand, hb0, hp0, hmA]
    have h2 : (routerArrive (routerArrive rs d A) d B) d =
        { busy := true, pending := some B, watchdog := isMotion B.action,
          sends := (rs d).sends ++ [(A.action, effSpeed A)] } := by
      rw [routerArrive, atDev_same, h1,
        arriveCmd_busy_nonstop _ B rfl hBs]
    have h3 : (routerComplete (routerArrive (routerArrive rs d A) d B) d) d =
        { busy := true, pending := none, watchdog := isMotion B.action,
          sends := (rs d).sends ++ [(A.action, effSpeed A), (B.action, effSpeed B)] } := by
      rw [routerComplete, atDev_same, h2]
      simp [completeSend, executeCommand]
    have h4 : (routerComplete (routerComplete (routerArrive (routerArrive rs d A) d B) d) d) d =
        { busy := false, pending := none, watchdog := isMotion B.action,
          sends := (rs d).sends ++ [(A.action, effSpeed A), (B.action, effSpeed B)] } := by
      rw [routerComplete, atDev_same, h3]
      simp [completeSend]
    exact ⟨by simp [h1], by simp [h2], by simp [h3], by simp [h4],
           by simp [h4], by simp [h4]⟩

/-- Witness for C3: a busy device receiving `PAN_RIGHT` then `TILT_UP`
executes only `TILT_UP` when the in-flight send completes. -/
theorem conflation_latest_wins_witness :
    (completeSend (([(⟨"PAN_RIGHT", some 10⟩ : Cmd)] ++ [(⟨"TILT_UP", some 20⟩ : Cmd)]).foldl
        arriveCmd (⟨true, none, false, []⟩ : DevState))).sends
      = ([] : List (String × ℚ)) ++ [("TILT_UP", effSpeed (⟨"TILT_UP", some 20⟩ : Cmd))] :=
  (conflation_latest_wins (⟨true, none, false, []⟩ : DevState) [⟨"PAN_RIGHT", some 10⟩]
    ⟨"TILT_UP", some 20⟩ rfl
    (by intro c hc; rw [List.mem_singleton.mp hc]; decide)
    (by show "TILT_UP" ≠ "STOP"; decide)).2.2.2.1

/-- C4 (counterexample): the spec's closed action enumeration contains
`PRESET_SET` (preset-store) and `PTZ_VECTOR` (the continuous vector
variant), but `sanitizeCommand` rejects both — its allow-list stops at
the eight discrete actions — so the gate does not accept exactly the
spec's enumeration. -/
theorem sanitize_vs_spec_enumeration_counterexample :
    "PRESET_SET" ∈ specActionEnumeration
  ∧ "PTZ_VECTOR" ∈ specActionEnumeration
  ∧ sanitizeCommand ⟨.str "PRESET_SET", .num 50, .other⟩ = none
  ∧ sanitizeCommand ⟨.str "PTZ_VECTOR", .num 50, .other⟩ = none := by
  refine ⟨by decide, by decide, by decide, by decide⟩

/-- C4 (amended): `sanitizeCommand` accepts exactly the inbound objects
whose action is a non-empty string uppercasing into the eight-action
allow-list (`PAN_LEFT`, `PAN_RIGHT`, `TILT_UP`, `TILT_DOWN`, `STOP`,
`ZOOM_IN`, `ZOOM_OUT`, `PRESET_CALL` — preset-store and the vector
variant are not in it); every accepted command carries the uppercased
action, speed clamped into [0,100] with default 50 for non-numbers, and
target defaulted to `"ALL"` for non-strings; `REBOOT` is rejected,
`pan_left` normalizes to `PAN_LEFT`, and speed 150 clamps to 100. -/
theorem sanitizeCommand_gate (cmd : InboundCmd) :
    ((sanitizeCommand cmd).isSome = true ↔
      ∃ a, cmd.action = .str a ∧ a ≠ "" ∧ jsToUpper a ∈ ALLOWED_ACTIONS)
  ∧ (∀ out, sanitizeCommand cmd = some out →
      (∀ a, cmd.action = .str a → out.action = jsToUpper a)
      ∧ (0 ≤ out.speed ∧ out.speed ≤ 100)
      ∧ (∀ q, cmd.speed = .num q → out.speed = max 0 (min 100 q))
      ∧ ((∀ q, cmd.speed ≠ .num q) → out.speed = 50)
      ∧ (∀ t, cmd.target = .str t → out.target = t)
      ∧ ((∀ t, cmd.target ≠ .str t) → out.target = "ALL"))
  ∧ sanitizeCommand ⟨.str "REBOOT", .num 50, .other⟩ = none
  ∧ sanitizeCommand ⟨.str "pan_left", .other, .other⟩ =
      some ⟨"PAN_LEFT", 50, "ALL"⟩
  ∧ sanitizeCommand ⟨.str "PAN_LEFT", .num 150, .str "cam1"⟩ =
      some ⟨"PAN_LEFT", 100, "cam1"⟩ := by
  obtain ⟨act, sp, tgt⟩ := cmd
  refine ⟨?_, ?_, by decide, by decide, by decide⟩
  · cases act with
    | str a =>
      by_cases ha : a = ""
      · subst ha; simp [sanitizeCommand]
      · by_cases hall : jsToUpper a ∈ ALLOWED_ACTIONS
        · simp [sanitizeCommand, ha, hall]
        · simp [sanitizeCommand, ha, hall]
    | num q => simp [sanitizeCommand]
    | other => simp [sanitizeCommand]
  · intro out hout
    cases act with
    | str a =>
      by_cases ha : a = ""
      · subst ha; simp [sanitizeCommand] at hout
      · by_cases hall : jsToUpper a ∈ ALLOWED_ACTIONS
        · simp only [sanitizeCommand, if_neg ha] at hout
          rw [if_pos (by simpa using hall)] at hout
          obtain ⟨⟩ := Option.some.inj hout
          refine ⟨fun a' ha' => by simp_all, ?_, ?_, ?_, ?_, ?_⟩
          · cases sp with
            | num q =>
              exact ⟨le_max_left 0 _, max_le (by norm_num) (min_le_left _ _)⟩
            | str s => constructor <;> norm_num
            | other => constructor <;> norm_num
          · intro q hq; cases sp <;> simp_all
          · intro hq
            cases sp with
            | num q => exact absurd rfl (hq q)
            | str s => rfl
            | other => rfl
          · intro t ht; cases tgt <;> simp_all
          · intro ht
            cases tgt with
            | str t => exact absurd rfl (ht t)
            | num q => rfl
            | other => rfl
        · simp [sanitizeCommand, ha, hall] at hout
    | num q => simp [sanitizeCommand] at hout
    | other => simp [sanitizeCommand] at hout

/-- Witness for C4: the accepted command `tilt_up` at speed 150 carries a
speed inside [0,100]. -/
theorem sanitizeCommand_gate_witness :
    0 ≤ (({ action := "TILT_UP", speed := 100, target := "ALL" } : SanitizedCmd)).speed
  ∧ (({ action := "TILT_UP", speed := 100, target := "ALL" } : SanitizedCmd)).speed ≤ 100 :=
  ((sanitizeCommand_gate ⟨.str "tilt_up", .num 150, .other⟩).2.1
    { action := "TILT_UP", speed := 100, target := "ALL" } (by decide)).2.1

/-- C5: outside the 0.02 deadzone and for speed in [0,100], the Panasonic
vector encoding is `PTS{pp}{tt}` with
`pp = clamp(50 + round(x * (speed/100) * 49), 1, 99)` and likewise `tt`
for `y`, both zero-padded to two digits; inside the deadzone it is the
neutral `PTS5050`; vector (0.6, −0.6) at speed 100 yields `PTS7921`. -/
theorem pana_vector_encoding (x y speed : ℚ)
    (h0 : 0 ≤ speed) (h1 : speed ≤ 100)
    (hd : 2/100 ≤ |x| ∨ 2/100 ≤ |y|) :
    mapCommandToCgi "PTZ_VECTOR" speed (some ⟨x, y⟩) =
      "PTS" ++ pad ((clamp (50 + jsRound (x * (speed/100) * 49)) 1 99 : ℤ) : ℚ)
            ++ pad ((clamp (50 + jsRound (y * (speed/100) * 49)) 1 99 : ℤ) : ℚ)
  ∧ (∀ x' y' : ℚ, |x'| < 2/100 → |y'| < 2/100 →
      mapCommandToCgi "PTZ_VECTOR" speed (some ⟨x', y'⟩) = "PTS5050")
  ∧ mapCommandToCgi "PTZ_VECTOR" 100 (some ⟨6/10, -(6/10)⟩) = "PTS7921" := by
  refine ⟨?_, ?_, ?_⟩
  · have hcond : ¬(|x| < 2/100 ∧ |y| < 2/100) := by
      rcases hd with h | h
      · exact fun hc => absurd hc.1 (not_lt.mpr h)
      · exact fun hc => absurd hc.2 (not_lt.mpr h)
    simp only [mapCommandToCgi, if_true]
    rw [if_neg hcond, min_eq_right h1, max_eq_right h0, ← mul_assoc, ← mul_assoc]
  · intro x' y' hx hy
    simp only [mapCommandToCgi, if_true]
    rw [if_pos ⟨hx, hy⟩]
  · simp only [mapCommandToCgi, jsRound, clamp, pad]
    norm_num [Int.floor_eq_iff]
    rw [if_neg (by norm_num [le_abs])]
    rfl

/-- Witness for C5: the concrete encoding of vector (0.6, −0.6) at speed
100. -/
theorem pana_vector_encoding_witness :
    mapCommandToCgi "PTZ_VECTOR" 100 (some ⟨6/10, -(6/10)⟩) = "PTS7921" :=
  (pana_vector_encoding (6/10) (-(6/10)) 100 (by norm_num) (by norm_num)
    (Or.inl (by norm_num [le_abs]))).2.2

/-- C6: when the encoded command equals the device's recorded last
command, the Panasonic adapter transmits nothing and returns
`{ success: true, skipped: true }` with the state unchanged; the
adapter's stop clears the recorded last command for the device, so the
next command after a stop is always transmitted (its outcome never
carries `skipped`). -/
theorem pana_duplicate_suppression
    (st : PanaState) (ip action : String) (speed : ℚ) (vector : Option Vec2)
    (net : Except String Unit)
    (hdup : st.lastCmds ip = some (mapCommandToCgi action speed vector)) :
    pana_sendCommand st ip action speed vector net =
      .ok ({ success := true, error := none, skipped := some true }, st, [])
  ∧ (∀ (net1 net2 : Except String Unit) (act2 : String) (sp2 : ℚ) (v2 : Option Vec2),
      ∃ out1 st1 w1,
        pana_stop st ip net1 = .ok (out1, st1, w1)
        ∧ st1.lastCmds ip = none
        ∧ ∃ out2 st2,
            pana_sendCommand st1 ip act2 sp2 v2 net2 =
              .ok (out2, st2, [mapCommandToCgi act2 sp2 v2])
            ∧ out2.skipped = none) := by
  constructor
  · simp [pana_sendCommand, hdup]
  · intro net1 net2 act2 sp2 v2
    refine ⟨(match net1 with
             | .ok _ => { success := true, error := none, skipped := none }
             | .error e => { success := false, error := some e, skipped := none }),
            ⟨fun k => if k = ip then none else st.lastCmds k⟩, ["P50T50Z50"],
            ?_, by simp, ?_⟩
    · cases net1 <;> rfl
    · refine ⟨(match net2 with
               | .ok _ => { success := true, error := none, skipped := none }
               | .error e => { success := false, error := some e, skipped := none }),
              ⟨fun k => if k = ip then some (mapCommandToCgi act2 sp2 v2)
                        else if k = ip then none else st.lastCmds k⟩, ?_, ?_⟩
      · simp only [pana_sendCommand]
        rw [if_neg (by simp)]
        cases net2 <;> rfl
      · cases net2 <;> rfl

/-- Witness for C6: a device whose last recorded command is `PTS5050`
receiving `STOP` (which encodes to `PTS5050`) gets a skipped outcome and
no transmission. -/
theorem pana_duplicate_suppression_witness :
    pana_sendCommand (⟨fun _ => some "PTS5050"⟩ : PanaState) "192.168.0.10"
        "STOP" 50 none (.ok ()) =
      .ok ({ success := true, error := none, skipped := some true },
           (⟨fun _ => some "PTS5050"⟩ : PanaState), []) :=
  (pana_duplicate_suppression ⟨fun _ => some "PTS5050"⟩ "192.168.0.10"
    "STOP" 50 none (.ok ()) rfl).1

/-- C7 (counterexample): `lastCmds` records the encoding before the
transmission attempt and a failure does not roll it back, so re-issuing
`PAN_LEFT` at speed 50 (encoding `PTS2550`) right after a failed send of
the same command returns a skipped outcome with no new transmission
attempt — not the new attempt the claim requires. -/
theorem pana_retry_after_failure_counterexample :
    pana_sendCommand ⟨fun _ => none⟩ "192.168.0.10" "PAN_LEFT" 50 none
        (.error "connect ECONNREFUSED") =
      .ok ({ success := false, error := some "connect ECONNREFUSED", skipped := none },
           ⟨fun k => if k = "192.168.0.10" then some "PTS2550" else none⟩,
           ["PTS2550"])
  ∧ pana_sendCommand ⟨fun k => if k = "192.168.0.10" then some "PTS2550" else none⟩
        "192.168.0.10" "PAN_LEFT" 50 none (.ok ()) =
      .ok ({ success := true, error := none, skipped := some true },
           ⟨fun k => if k = "192.168.0.10" then some "PTS2550" else none⟩, []) := by
  constructor
  · simp [pana_sendCommand, mapCommandToCgi_pan_left_50, tryE, Bind.bind, Except.bind]
  · simp [pana_sendCommand, mapCommandToCgi_pan_left_50]

/-- C7 (amended): a failed send does not suppress future commands that
encode to a different wire string — they are transmitted normally — but
because the suppression memory is recorded before the transmission
attempt, re-issuing the identically-encoded command with no intervening
stop is suppressed (skipped, no transmission) even after the failure. -/
theorem pana_failure_suppresses_only_identical
    (st : PanaState) (ip act : String) (sp : ℚ) (v : Option Vec2) (e : String)
    (hnodup : st.lastCmds ip ≠ some (mapCommandToCgi act sp v)) :
    ∃ st1,
      pana_sendCommand st ip act sp v (.error e) =
        .ok ({ success := false, error := some e, skipped := none }, st1,
             [mapCommandToCgi act sp v])
    ∧ st1.lastCmds ip = some (mapCommandToCgi act sp v)
    ∧ (∀ (act2 : String) (sp2 : ℚ) (v2 : Option Vec2) (net2 : Except String Unit),
        mapCommandToCgi act2 sp2 v2 ≠ mapCommandToCgi act sp v →
        ∃ out2 st2,
          pana_sendCommand st1 ip act2 sp2 v2 net2 =
            .ok (out2, st2, [mapCommandToCgi act2 sp2 v2]) ∧ out2.skipped = none)
    ∧ pana_sendCommand st ip act sp v (.error e) ≠
        .ok ({ success := true, error := none, skipped := some true }, st, [])
    ∧ pana_sendCommand
        (⟨fun k => if k = ip then some (mapCommandToCgi act sp v) else st.lastCmds k⟩ :
          PanaState) ip act sp v (.ok ()) =
      .ok ({ success := true, error := none, skipped := some true },
           ⟨fun k => if k = ip then some (mapCommandToCgi act sp v) else st.lastCmds k⟩,
           []) := by
  refine ⟨⟨fun k => if k = ip then some (mapCommandToCgi act sp v) else st.lastCmds k⟩,
          ?_, by simp, ?_, ?_, ?_⟩
  · simp only [pana_sendCommand]
    rw [if_neg hnodup]
    rfl
  · intro act2 sp2 v2 net2 hne
    refine ⟨(match net2 with
             | .ok _ => { success := true, error := none, skipped := none }
             | .error e2 => { success := false, error := some e2, skipped := none }),
            ⟨fun k => if k = ip then some (mapCommandToCgi act2 sp2 v2)
                      else if k = ip then some (mapCommandToCgi act sp v)
                      else st.lastCmds k⟩, ?_, ?_⟩
    · simp only [pana_sendCommand]
      rw [if_neg (by simp; exact Ne.symm hne)]
      cases net2 <;> rfl
    · cases net2 <;> rfl
  · simp only [pana_sendCommand]
    rw [if_neg hnodup]
    simp [tryE, Bind.bind, Except.bind]
  · simp [pana_sendCommand]

/-- Witness for C7 (amended): the fresh-state instantiation at `STOP`
over the wire after a failed transport. -/
theorem pana_failure_suppresses_only_identical_witness :
    ∃ st1,
      pana_sendCommand (⟨fun _ => none⟩ : PanaState) "cam" "STOP" 50 none
          (.error "timeout of 500ms exceeded") =
        .ok ({ success := false, error := some "timeout of 500ms exceeded",
               skipped := none }, st1,
             [mapCommandToCgi "STOP" 50 none])
    ∧ st1.lastCmds "cam" = some (mapCommandToCgi "STOP" 50 none)
    ∧ (∀ (act2 : String) (sp2 : ℚ) (v2 : Option Vec2) (net2 : Except String Unit),
        mapCommandToCgi act2 sp2 v2 ≠ mapCommandToCgi "STOP" 50 none →
        ∃ out2 st2,
          pana_sendCommand st1 "cam" act2 sp2 v2 net2 =
            .ok (out2, st2, [mapCommandToCgi act2 sp2 v2]) ∧ out2.skipped = none)
    ∧ pana_sendCommand (⟨fun _ => none⟩ : PanaState) "cam" "STOP" 50 none
          (.error "timeout of 500ms exceeded") ≠
        .ok ({ success := true, error := none, skipped := some true },
             (⟨fun _ => none⟩ : PanaState), [])
    ∧ pana_sendCommand
        (⟨fun k => if k = "cam" then some (mapCommandToCgi "STOP" 50 none)
                   else (fun _ => none) k⟩ : PanaState) "cam" "STOP" 50 none (.ok ()) =
      .ok ({ success := true, error := none, skipped := some true },
           ⟨fun k => if k = "cam" then some (mapCommandToCgi "STOP" 50 none)
                     else (fun _ => none) k⟩, []) :=
  pana_failure_suppresses_only_identical ⟨fun _ => none⟩ "cam" "STOP" 50 none
    "timeout of 500ms exceeded" (by simp)

/-- C8: the discovery aggregator settles all four adapters' discovery
results and returns exactly the concatenation of the fulfilled ones, in
adapter order, as a total function (it never rejects); in particular a
raising VISCA discovery leaves the Panasonic, ONVIF and generic-HTTP
contributions intact. -/
theorem discovery_failure_isolation
    (rp ro rv rn : Except String (List DeviceDescr)) :
    discoverAll rp ro rv rn =
      settledValue rp ++ settledValue ro ++ settledValue rv ++ settledValue rn
  ∧ (∀ e, discoverAll rp ro (.error e) rn =
      settledValue rp ++ settledValue ro ++ settledValue rn) := by
  constructor
  · cases rp <;> cases ro <;> cases rv <;> cases rn <;>
      simp [discoverAll, aggregateSettled, settledValue]
  · intro e
    cases rp <;> cases ro <;> cases rn <;>
      simp [discoverAll, aggregateSettled, settledValue]

/-- C9: every adapter's `sendCommand` and `stop` resolve with an outcome
value for every input and transport result — a transport error is caught
at the adapter boundary and returned as `{ success: false, error }`,
never thrown past it. -/
theorem adapters_contain_transport_failure :
    (∀ st ip act sp v net, ∃ o st2 w,
        pana_sendCommand st ip act sp v net = .ok (o, st2, w))
  ∧ (∀ st ip net, ∃ o st2 w, pana_stop st ip net = .ok (o, st2, w))
  ∧ (∀ st ip e, ∃ st2, pana_stop st ip (.error e) =
        .ok ({ success := false, error := some e, skipped := none }, st2, ["P50T50Z50"]))
  ∧ (∀ st ip act sp v e, st.lastCmds ip ≠ some (mapCommandToCgi act sp v) →
        ∃ st2, pana_sendCommand st ip act sp v (.error e) =
          .ok ({ success := false, error := some e, skipped := none }, st2,
               [mapCommandToCgi act sp v]))
  ∧ (∀ act sp v i op, ∃ o, onvif_sendCommand act sp v i op = .ok o)
  ∧ (∀ i op, ∃ o, onvif_stop i op = .ok o)
  ∧ (∀ act sp v e op, onvif_sendCommand act sp v (.error e) op =
        .ok { success := false, error := some e, skipped := none })
  ∧ (∀ e op, onvif_stop (.error e) op =
        .ok { success := false, error := some e, skipped := none })
  ∧ (∀ act sp n1 n2, ∃ o, visca_sendCommand act sp n1 n2 = .ok o)
  ∧ (∀ n1 n2, ∃ o, visca_stop n1 n2 = .ok o)
  ∧ (∀ act sp e n2, ∃ o, visca_sendCommand act sp (.error e) n2 = .ok o
        ∧ o.success = false ∧ o.error ≠ none)
  ∧ (∀ e n2, visca_stop (.error e) n2 =
        .ok { success := false, error := some e, skipped := none })
  ∧ (∀ act sp o1 o2 o3, ∃ o, ndi_sendCommand act sp o1 o2 o3 = .ok o)
  ∧ (∀ o1 o2 o3, ∃ o, ndi_stop o1 o2 o3 = .ok o)
  ∧ (∀ act sp e1 e2 e3, ∃ o,
        ndi_sendCommand act sp (.error e1) (.error e2) (.error e3) = .ok o
        ∧ o.success = false ∧ o.error ≠ none) := by
  refine ⟨?_, ?_, ?_, ?_, ?_, ?_, ?_, ?_, ?_, ?_, ?_, ?_, ?_, ?_, ?_⟩
  · intro st ip act sp v net
    by_cases hdup : st.lastCmds ip = some (mapCommandToCgi act sp v)
    · exact ⟨{ success := true, error := none, skipped := some true }, st, [],
        by simp [pana_sendCommand, hdup]⟩
    · simp only [pana_sendCommand]
      rw [if_neg hdup]
      cases net <;> exact ⟨_, _, _, rfl⟩
  · intro st ip net
    cases net <;> exact ⟨_, _, _, rfl⟩
  · intro st ip e
    exact ⟨_, rfl⟩
  · intro st ip act sp v e hdup
    simp only [pana_sendCommand]
    rw [if_neg hdup]
    exact ⟨_, rfl⟩
  · intro act sp v i op
    simp only [onvif_sendCommand]
    cases i with
    | error e => exact ⟨_, rfl⟩
    | ok u =>
      cases h : onvifOpFor act sp v with
      | some o => cases op <;> simp [tryE, Bind.bind, Except.bind, h]
      | none => simp [tryE, Bind.bind, Except.bind, h]
  · intro i op
    cases i with
    | error e => exact ⟨_, rfl⟩
    | ok u => cases op <;> exact ⟨_, rfl⟩
  · intro act sp v e op
    rfl
  · intro e op
    rfl
  · intro act sp n1 n2
    simp only [visca_sendCommand]
    cases n1 <;> cases n2 <;>
      simp [tryE, sendViscaUdp, Bind.bind, Except.bind] <;>
      split <;> simp
  · intro n1 n2
    cases n1 <;> cases n2 <;> exact ⟨_, rfl⟩
  · intro act sp e n2
    simp only [visca_sendCommand]
    cases n2 <;>
      simp [tryE, sendViscaUdp, Bind.bind, Except.bind] <;>
      split <;> simp
    all_goals (rename_i x m a heq; split at heq <;> first | (cases heq; simp) | simp_all)
  · intro e n2
    cases n2 <;> rfl
  · intro act sp o1 o2 o3
    simp only [ndi_sendCommand, ndiAttempts]
    by_cases h : act ∈ ndiKnownActions <;>
      cases o1 <;> cases o2 <;> cases o3 <;>
      simp [tryE, Bind.bind, Except.bind, h]
  · intro o1 o2 o3
    simp only [ndi_stop, ndi_sendCommand, ndiAttempts]
    cases o1 <;> cases o2 <;> cases o3 <;>
      simp [tryE, Bind.bind, Except.bind, ndiKnownActions]
  · intro act sp e1 e2 e3
    simp only [ndi_sendCommand, ndiAttempts]
    by_cases h : act ∈ ndiKnownActions <;>
      simp [tryE, Bind.bind, Except.bind, h]

/-- Witness for C9: the ONVIF adapter at a concrete failed connection,
and the Panasonic adapter at a concrete fresh state and failed
transport, both resolve with failure outcomes. -/
theorem adapters_contain_transport_failure_witness :
    onvif_sendCommand "PAN_LEFT" 50 none (.error "connect ECONNREFUSED") (.ok ()) =
      .ok { success := false, error := some "connect ECONNREFUSED", skipped := none }
  ∧ (∃ st2, pana_sendCommand (⟨fun _ => none⟩ : PanaState) "cam" "STOP" 50 none
        (.error "socket hang up") =
      .ok ({ success := false, error := some "socket hang up", skipped := none }, st2,
           [mapCommandToCgi "STOP" 50 none])) :=
  ⟨adapters_contain_transport_failure.2.2.2.2.2.2.1 "PAN_LEFT" 50 none
      "connect ECONNREFUSED" (.ok ()),
   adapters_contain_transport_failure.2.2.2.1 ⟨fun _ => none⟩ "cam" "STOP" 50 none
      "socket hang up" (by simp)⟩

/-- C10: every discrete motion action at speed 0 — which the gate accepts
— encodes to the neutral wire command: `PTS5050` for pan/tilt (the same
string `STOP` encodes to) and `Z50` for zoom (the `ZOOM_STOP` wire), so
a zero-speed motion command is indistinguishable on the wire from a
stop. -/
theorem zero_speed_motion_is_neutral :
    mapCommandToCgi "PAN_LEFT" 0 none = "PTS5050"
  ∧ mapCommandToCgi "PAN_RIGHT" 0 none = "PTS5050"
  ∧ mapCommandToCgi "TILT_UP" 0 none = "PTS5050"
  ∧ mapCommandToCgi "TILT_DOWN" 0 none = "PTS5050"
  ∧ mapCommandToCgi "ZOOM_IN" 0 none = "Z50"
  ∧ mapCommandToCgi "ZOOM_OUT" 0 none = "Z50"
  ∧ mapCommandToCgi "STOP" 0 none = "PTS5050"
  ∧ mapCommandToCgi "ZOOM_STOP" 0 none = "Z50"
  ∧ sanitizeCommand ⟨.str "PAN_LEFT", .num 0, .other⟩ =
      some ⟨"PAN_LEFT", 0, "ALL"⟩ := by
  refine ⟨?_, ?_, ?_, ?_, ?_, ?_, rfl, rfl, by decide⟩
  all_goals
    simp only [mapCommandToCgi, mapCommandToCgi.mapDiscrete,
      mapCommandToCgi.ptWire, jsRound, clamp, pad]
  all_goals norm_num
  all_goals rfl

end Ptzcntrl
